import Mathlib

/-!
# Verification of the hyprsunrisewatcher scheduler and control loop

Shallow embedding of the event-trigger scheduler and the daemon control loop
of the `hyprsunrisewatcher` daemon (files `src/scheduler.rs`, `src/config.rs`,
`src/daemon.rs`).

Modelling choices:

* `DateTime<Utc>` is an `Int` counting seconds since the Unix epoch;
  `TimeDelta` is an `Int` of seconds.  `NaiveTime` (a wall-clock time of day)
  is an `Int` of seconds since midnight.
* `chrono`'s `date_naive()` is flooring division by 86400 (`dateNaive`),
  `naive_local().time()` on a UTC instant is the remainder (`timeOfDay`),
  and `with_time` keeps the day and replaces the time of day (`withTime`).
  `checked_sub_days(Days::new(1))` / `checked_add_days` shift the calendar
  date by exactly one, so the previous/next solar day is `dateNaive now ∓ 1`.
* The astronomical collaborator (the `sunrise` crate's
  `SolarDay::event_time`) is abstracted as a `SolarTables` value: a function
  from (day number, solar event) to the boundary instant.  The classification
  logic of `Interval::new` is embedded literally over that oracle.
* The wall clock read `Utc::now()` inside the manual scheduler's
  `next_action_at` is passed explicitly as a `callNow : Int` argument.
* The `f64` coordinate values are modelled as exact rationals (`Rat`): the
  only operation the embedded code performs on them is the range
  comparison inside `Coordinates::new`, which is exact on these bounds.
  `NaN` (which also fails the range check in the source and hence also
  reaches the panic branch) has no rational counterpart and is not
  modelled; the panic branch is exercised through out-of-range values.
* Channels and subprocesses are modelled by explicit messages and effect
  lists; a `?`-propagated error that reaches an `.expect(..)` call is an
  outcome constructor (`panicked` / `failed`).
-/

namespace Hypr

/-- Seconds in one day; `chrono` solar-day arithmetic is day-granular. -/
def secondsPerDay : Int := 86400

/-- `DateTime::date_naive()`: the calendar day containing a UTC instant. -/
def dateNaive (t : Int) : Int := t.fdiv 86400

/-- `DateTime<Utc>::naive_local().time()`: seconds since midnight UTC. -/
def timeOfDay (t : Int) : Int := t.emod 86400

/-- `Utc::now().with_time(tod)`: the day of `callNow` at time-of-day `tod`.
For `Utc` this `LocalResult` is always `Single`, so the `.unwrap()` in the
source cannot panic. -/
def withTime (callNow tod : Int) : Int := dateNaive callNow * 86400 + tod

/-- `scheduler.rs`: `enum ActionTrigger { Sunrise, Sunset, Dusk, Dawn }`. -/
inductive ActionTrigger
  | Sunrise
  | Sunset
  | Dusk
  | Dawn
deriving DecidableEq, Repr

/-- `scheduler.rs`: `ActionTrigger::next` — the cyclic successor. -/
def ActionTrigger.next : ActionTrigger → ActionTrigger
  | ActionTrigger.Sunrise => ActionTrigger.Sunset
  | ActionTrigger.Sunset => ActionTrigger.Dusk
  | ActionTrigger.Dusk => ActionTrigger.Dawn
  | ActionTrigger.Dawn => ActionTrigger.Sunrise

/-- The `sunrise` crate's `SolarEvent` (civil dawn/dusk variants only, as the
source always passes `DawnType::Civil`). -/
inductive SolarEvent
  | Dawn
  | Sunrise
  | Sunset
  | Dusk
deriving DecidableEq, Repr

/-- The astronomical collaborator `SolarDay::new(coords, day).event_time(ev)`
for one fixed set of coordinates: day number and event to boundary instant.
Kept abstract — the floating-point astronomy is out of scope, the claims are
about the classification logic layered on top of it. -/
structure SolarTables where
  eventTime : Int → SolarEvent → Int

/-- `scheduler.rs`: `struct Interval { start, end, event }`. -/
structure Interval where
  start : Int
  «end» : Int
  event : ActionTrigger
deriving DecidableEq, Repr

/-- `scheduler.rs`: `Interval::new(coords, date)`.  The five windows are
tried in the source's order, first match wins.  The `let` bindings of the
source are inlined (`eventTime` is pure, so the sharing is unobservable).
Note the first test is `yesterday_dusk < now && now < today_dawn`: strict at
BOTH ends, unlike the three later windows which are `<=` at the start. -/
def Interval.new (tab : SolarTables) (date : Int) : Interval :=
  if tab.eventTime (dateNaive date - 1) SolarEvent.Dusk < date ∧
      date < tab.eventTime (dateNaive date) SolarEvent.Dawn then
    ⟨tab.eventTime (dateNaive date - 1) SolarEvent.Dusk,
      tab.eventTime (dateNaive date) SolarEvent.Dawn, ActionTrigger.Dusk⟩
  else if tab.eventTime (dateNaive date) SolarEvent.Dawn ≤ date ∧
      date < tab.eventTime (dateNaive date) SolarEvent.Sunrise then
    ⟨tab.eventTime (dateNaive date) SolarEvent.Dawn,
      tab.eventTime (dateNaive date) SolarEvent.Sunrise, ActionTrigger.Dawn⟩
  else if tab.eventTime (dateNaive date) SolarEvent.Sunrise ≤ date ∧
      date < tab.eventTime (dateNaive date) SolarEvent.Sunset then
    ⟨tab.eventTime (dateNaive date) SolarEvent.Sunrise,
      tab.eventTime (dateNaive date) SolarEvent.Sunset, ActionTrigger.Sunrise⟩
  else if tab.eventTime (dateNaive date) SolarEvent.Sunset ≤ date ∧
      date < tab.eventTime (dateNaive date) SolarEvent.Dusk then
    ⟨tab.eventTime (dateNaive date) SolarEvent.Sunset,
      tab.eventTime (dateNaive date) SolarEvent.Dusk, ActionTrigger.Sunset⟩
  else
    ⟨tab.eventTime (dateNaive date) SolarEvent.Dusk,
      tab.eventTime (dateNaive date + 1) SolarEvent.Dawn, ActionTrigger.Dusk⟩

/-- `scheduler.rs`: `Interval::current_event`. -/
def Interval.current_event (i : Interval) : ActionTrigger := i.event

/-- `scheduler.rs`: `impl Trigger for LocationInfo`, `next_action_at`:
`Some((interval.event.next(), interval.end))` for the interval at `date`. -/
def locationNextActionAt (tab : SolarTables) (date : Int) :
    Option (ActionTrigger × Int) :=
  some ((Interval.new tab date).event.next, (Interval.new tab date).«end»)

/-- `config.rs`: `struct ManualTimeStamp { trigger_time, action }`. -/
structure ManualTimeStamp where
  trigger_time : Int
  action : ActionTrigger
deriving DecidableEq, Repr

/-- Rust's `Iterator::min_by` with the source's comparator
`(a.trigger_time - now_tod).cmp(&(b.trigger_time - now_tod))`: a left fold
that keeps the accumulator unless the candidate is strictly smaller, so the
FIRST minimal element wins.  Note: the comparator is the SIGNED difference,
no absolute value is taken. -/
def rustMinBy (tod : Int) : List ManualTimeStamp → Option ManualTimeStamp
  | [] => none
  | x :: xs =>
    some (xs.foldl
      (fun acc y =>
        if y.trigger_time - tod < acc.trigger_time - tod then y else acc)
      x)

/-- `scheduler.rs`: `impl Trigger for Vec<ManualTimeStamp>`,
`next_action_at(date)`.  `date` supplies the time of day fed to the
comparator; `callNow` is the `Utc::now()` read inside the method body whose
calendar day the returned instant lives on. -/
def manualNextActionAt (l : List ManualTimeStamp) (date callNow : Int) :
    Option (ActionTrigger × Int) :=
  (rustMinBy (timeOfDay date) l).map
    (fun m => (m.action, withTime callNow m.trigger_time))

/-- `config.rs`: `struct Actions` — one optional command per trigger kind. -/
structure Actions where
  on_sunrise : Option String
  on_sunset : Option String
  on_dawn : Option String
  on_dusk : Option String
deriving DecidableEq, Repr

/-- `config.rs`: `Actions::get` — clones the per-kind optional string; an
empty string is returned as `some ""`, not filtered out. -/
def Actions.get (a : Actions) (trigger : ActionTrigger) : Option String :=
  match trigger with
  | ActionTrigger.Sunrise => a.on_sunrise
  | ActionTrigger.Sunset => a.on_sunset
  | ActionTrigger.Dusk => a.on_dusk
  | ActionTrigger.Dawn => a.on_dawn

/-- `config.rs`: `struct AutomaticConfig { longitude, latitude }` (f64,
modelled as exact rationals). -/
structure AutomaticConfig where
  longitude : Rat
  latitude : Rat
deriving DecidableEq, Repr

/-- The `sunrise` crate's `Coordinates`: a validated latitude/longitude
pair in degrees. -/
structure Coordinates where
  latitude : Rat
  longitude : Rat
deriving DecidableEq, Repr

/-- The `sunrise` crate's `Coordinates::new(latitude, longitude)`: `Some`
exactly when latitude ∈ [-90, 90] and longitude ∈ [-180, 180], else
`None`. -/
def Coordinates.new (latitude longitude : Rat) : Option Coordinates :=
  if -90 ≤ latitude ∧ latitude ≤ 90 ∧ -180 ≤ longitude ∧ longitude ≤ 180 then
    some ⟨latitude, longitude⟩
  else none

/-- `config.rs`: `struct ManualConfig { time_stamps }`. -/
structure ManualConfig where
  time_stamps : List ManualTimeStamp

/-- `config.rs`: `struct Configuration`. -/
structure Configuration where
  enabled : Bool
  manual : Option ManualConfig
  automatic : Option AutomaticConfig
  actions : Actions
  hot_reload : Bool

/-- `error.rs`: `enum Error`. -/
inductive Error
  | InvalidCoordinates (lat long : Rat)
  | InvalidAction (action : String)
  | InvalidConfiguration
  | FailedtoCreateDaemon
deriving DecidableEq, Repr

/-- The two `Scheduler<T>` instantiations reachable from
`TriggerSource::from_config`: `Scheduler::automatic` over a `LocationInfo`
(holding the VALIDATED `Coordinates`) and `Scheduler::manual` over a
`Vec<ManualTimeStamp>`, each carrying the cloned `Actions`. -/
inductive EventSourceImpl
  | automatic (coords : Coordinates) (actions : Actions)
  | manual (time_stamps : List ManualTimeStamp) (actions : Actions)
deriving DecidableEq, Repr

/-- The `actions` component shared by both scheduler variants. -/
def EventSourceImpl.actions : EventSourceImpl → Actions
  | EventSourceImpl.automatic _ a => a
  | EventSourceImpl.manual _ a => a

/-- Outcome of `TriggerSource::from_config`: success, an `Err` (the
function's `Result` channel), or a PANIC — the automatic branch goes
through `LocationInfo::from((f64, f64))`, which calls
`Coordinates::new(latitude, longitude).unwrap()`, so out-of-range
coordinates abort instead of returning an `Err`. -/
inductive FromConfigResult
  | ok (src : EventSourceImpl)
  | err (e : Error)
  | panicked
deriving DecidableEq, Repr

/-- Whether `from_config` returned successfully. -/
def FromConfigResult.isOk : FromConfigResult → Bool
  | FromConfigResult.ok _ => true
  | _ => false

namespace TriggerSource

/-- `scheduler.rs`: `TriggerSource::from_config` — automatic first (its
coordinates validated by `Coordinates::new` and unwrapped: `None` is a
panic), then manual, else `Error::InvalidConfiguration`. -/
def from_config (config : Configuration) : FromConfigResult :=
  match config.automatic with
  | some auto =>
    match Coordinates.new auto.latitude auto.longitude with
    | some coords =>
      FromConfigResult.ok (EventSourceImpl.automatic coords config.actions)
    | none => FromConfigResult.panicked
  | none =>
    match config.manual with
    | some manual =>
      FromConfigResult.ok
        (EventSourceImpl.manual manual.time_stamps config.actions)
    | none => FromConfigResult.err Error.InvalidConfiguration

end TriggerSource

/-- The `Trigger::next_action_at` dispatch of the two variants.  The
automatic variant reads only its coordinates (via `tab`) and `date`; the
manual variant additionally reads the wall clock (`callNow`). -/
def EventSourceImpl.next_action_at :
    EventSourceImpl → SolarTables → Int → Int → Option (ActionTrigger × Int)
  | EventSourceImpl.automatic _ _, tab, date, _ => locationNextActionAt tab date
  | EventSourceImpl.manual ts _, _, date, callNow =>
    manualNextActionAt ts date callNow

/-- `info.rs`: `struct EventInfo { at, trigger, action }`. -/
structure EventInfo where
  «at» : Int
  trigger : ActionTrigger
  action : Option String
deriving DecidableEq, Repr

/-- `scheduler.rs`: `Scheduler<T>::next_event_at` (as reached through
`TriggerSource::next_event_at`): map the trigger pair to an `EventInfo`
with the action resolved through `Actions::get`. -/
def EventSourceImpl.next_event_at (s : EventSourceImpl) (tab : SolarTables)
    (date callNow : Int) : Option EventInfo :=
  (s.next_action_at tab date callNow).map
    (fun p => ⟨p.2, p.1, s.actions.get p.1⟩)

/-- `actions.rs`: `enum Action` (the daemon's inbound command stream).
`GenerateDefaultConfig` is never consumed by the loop and is omitted. -/
inductive Action
  | Stop
  | Enable
  | Disable
  | Toggle
  | ReloadConfig
  | Trigger (action : String)
  | Nothing

/-- Failures that can cross `handle_command`'s `Result` boundary (the source
uses `Box<dyn Error>`): a failed `load_config` read, or the panic of the
`unreachable!` arm. -/
inductive DynError
  | configLoad
  | panicUnreachable

/-- Observable side effects of one `handle_command` call. -/
inductive Effect
  | spawnShell (cmd : String)
  | sendConfig (c : Configuration)
  | startWatch
  | stopWatch

/-- The daemon's mutable resources relevant to the loop: whether the
hot-reload watcher handle is present (`watcher.is_some()`). -/
structure DaemonM where
  watcherActive : Bool

/-- `daemon.rs`: `Daemon::recreate` — reconcile the watcher with
`config.hot_reload`, then send the new configuration to the trigger thread
(the channel send and watcher start/stop are recorded as effects). -/
def DaemonM.recreate (d : DaemonM) (config : Configuration) :
    DaemonM × List Effect :=
  if !config.hot_reload then
    (⟨false⟩, (if d.watcherActive then [Effect.stopWatch] else []) ++
      [Effect.sendConfig config])
  else if config.hot_reload && !d.watcherActive then
    (⟨true⟩, [Effect.startWatch, Effect.sendConfig config])
  else
    (d, [Effect.sendConfig config])

/-- `daemon.rs`: `handle_command`.  The `load : Except ..` argument is the
outcome of the `load_config(config_path)` file read performed by the
`ReloadConfig` arm; its error is propagated by `?` unchanged.  The `Stop`
arm is `unreachable!` — a panic. -/
def handle_command (command : Action) (config : Configuration) (d : DaemonM)
    (load : Except DynError Configuration) :
    Except DynError (Configuration × DaemonM × List Effect) :=
  match command with
  | Action.Stop => Except.error DynError.panicUnreachable
  | Action.Enable => Except.ok ({ config with enabled := true }, d, [])
  | Action.Disable => Except.ok ({ config with enabled := false }, d, [])
  | Action.Toggle => Except.ok ({ config with enabled := !config.enabled }, d, [])
  | Action.ReloadConfig =>
    match load with
    | Except.error e => Except.error e
    | Except.ok newConfig =>
      match d.recreate newConfig with
      | (d2, effs) => Except.ok (newConfig, d2, effs)
  | Action.Trigger action =>
    Except.ok (config, d,
      if config.enabled then [Effect.spawnShell action] else [])
  | Action.Nothing => Except.ok (config, d, [])

/-- Outcome of one turn of `Daemon::run`'s `while let Ok(c) = recv()` loop:
channel closed or `Stop` end the loop; a `handle_command` error hits the
`.expect("failed to handle command")` and panics the daemon. -/
inductive RunOutcome
  | stopped
  | panicked
  | continued (config : Configuration) (d : DaemonM)

/-- One turn of `Daemon::run`. -/
def runStep (recv : Option Action) (config : Configuration) (d : DaemonM)
    (load : Except DynError Configuration) : RunOutcome :=
  match recv with
  | none => RunOutcome.stopped
  | some Action.Stop => RunOutcome.stopped
  | some c =>
    match handle_command c config d load with
    | Except.ok (c2, d2, _) => RunOutcome.continued c2 d2
    | Except.error _ => RunOutcome.panicked

/-- Whether a `runStep` outcome leaves the control loop alive. -/
def RunOutcome.keepsRunning : RunOutcome → Bool
  | RunOutcome.continued _ _ => true
  | _ => false

/-- `receiver.try_recv()` in the trigger thread. -/
inductive RecvMsg
  | gotConfig (c : Configuration)
  | empty
  | disconnected

/-- Outcome of one iteration of `run_trigger_thread`'s loop: keep looping
with a (possibly new) scheduler and an optionally sent `Trigger` command,
return `Ok(())` on disconnect, propagate an error (which the `.expect(..)`
wrapper in `setup_trigger` turns into a thread panic), or panic directly
(the coordinate `.unwrap()` inside `from_config`). -/
inductive TrigOutcome
  | cont (st : Option EventSourceImpl) (sent : Option String)
  | finished
  | failed (e : Error)
  | panicked

/-- The polling half of a `run_trigger_thread` iteration: if a scheduler is
armed, ask it for the next event; if that event carries a command and its
instant is within 10 seconds of `now`, send the command.  There is no cache
of previously fired instants — nothing records that a command was sent. -/
def pollStep (st : Option EventSourceImpl) (tab : SolarTables)
    (now callNow : Int) : TrigOutcome :=
  match st with
  | none => TrigOutcome.cont none none
  | some src =>
    match src.next_event_at tab now callNow with
    | none => TrigOutcome.cont (some src) none
    | some ev =>
      match ev.action with
      | none => TrigOutcome.cont (some src) none
      | some action =>
        if |ev.«at» - now| < 10 then
          TrigOutcome.cont (some src) (some action)
        else TrigOutcome.cont (some src) none

/-- One full iteration of `run_trigger_thread`: drain the config slot
(`TriggerSource::from_config` errors propagate via `?`), then poll.  The
bounded `sleep` calls have no observable effect and are not modelled. -/
def runTriggerIteration (st : Option EventSourceImpl) (msg : RecvMsg)
    (tab : SolarTables) (now callNow : Int) : TrigOutcome :=
  match msg with
  | RecvMsg.disconnected => TrigOutcome.finished
  | RecvMsg.empty => pollStep st tab now callNow
  | RecvMsg.gotConfig config =>
    match TriggerSource.from_config config with
    | FromConfigResult.err e => TrigOutcome.failed e
    | FromConfigResult.panicked => TrigOutcome.panicked
    | FromConfigResult.ok src => pollStep (some src) tab now callNow

/-- The command sent by a trigger-thread iteration, if any. -/
def TrigOutcome.sent : TrigOutcome → Option String
  | TrigOutcome.cont _ s => s
  | _ => none

/-- Whether the trigger thread survives the iteration (a `failed` outcome
is converted into a panic by `setup_trigger`'s `.expect`; a `panicked`
outcome already is one). -/
def TrigOutcome.threadSurvives : TrigOutcome → Bool
  | TrigOutcome.failed _ => false
  | TrigOutcome.panicked => false
  | _ => true

/-- `n` consecutive iterations of the trigger thread's loop with an empty
config slot and a frozen clock, collecting every command sent. -/
def runPolls (st : Option EventSourceImpl) (tab : SolarTables)
    (now callNow : Int) : Nat → List String
  | 0 => []
  | n + 1 =>
    match runTriggerIteration st RecvMsg.empty tab now callNow with
    | TrigOutcome.cont st2 (some a) => a :: runPolls st2 tab now callNow n
    | TrigOutcome.cont st2 none => runPolls st2 tab now callNow n
    | _ => []

/-- The trigger kind a source would select at the given instant. -/
def chosenKind (src : EventSourceImpl) (tab : SolarTables)
    (now callNow : Int) : Option ActionTrigger :=
  (src.next_action_at tab now callNow).map Prod.fst

/-- Modelled from the amended reading of the spec's manual-selection rule:
the FIRST list entry attaining the minimum `trigger_time` (the comparator in
the source is the signed difference to now's time of day, which orders
entries exactly by `trigger_time`). -/
def firstMinByTriggerTime : List ManualTimeStamp → Option ManualTimeStamp
  | [] => none
  | m :: rest =>
    match firstMinByTriggerTime rest with
    | none => some m
    | some m2 =>
      if m2.trigger_time < m.trigger_time then some m2 else some m

/-! ## Concrete fixtures used by witnesses and counterexamples -/

/-- An action map with a command configured only for sunrise. -/
def acts0 : Actions := ⟨some "redshift", none, none, none⟩

/-- An action map with no commands configured at all. -/
def actsNone : Actions := ⟨none, none, none, none⟩

/-- An action map whose sunrise command is the EMPTY string (present but
empty). -/
def actsEmptyStr : Actions := ⟨some "", none, none, none⟩

/-- A manual time stamp: noon (43200 s), kind `Sunrise`. -/
def ts0 : ManualTimeStamp := ⟨43200, ActionTrigger.Sunrise⟩

/-- A manual time stamp: 01:00 (3600 s), kind `Sunset`. -/
def tsOne : ManualTimeStamp := ⟨3600, ActionTrigger.Sunset⟩

/-- A manual scheduler firing `"redshift"` at noon. -/
def srcM : EventSourceImpl := EventSourceImpl.manual [ts0] acts0

/-- A manual scheduler whose action map is entirely absent. -/
def srcNoActs : EventSourceImpl := EventSourceImpl.manual [ts0] actsNone

/-- A manual scheduler whose sunrise action is the empty string. -/
def srcEmptyStr : EventSourceImpl := EventSourceImpl.manual [ts0] actsEmptyStr

/-- Solar tables with civil dawn 05:00, sunrise 06:00, sunset 20:00 and
civil dusk 21:00 on every day. -/
def tab0 : SolarTables :=
  ⟨fun day ev => day * 86400 +
    (match ev with
     | SolarEvent.Dawn => 18000
     | SolarEvent.Sunrise => 21600
     | SolarEvent.Sunset => 72000
     | SolarEvent.Dusk => 75600)⟩

/-- Solar tables where civil dusk falls at 25:00, i.e. 01:00 of the NEXT
calendar day (as happens in UTC for longitudes far from Greenwich in
summer).  Then "yesterday's dusk" lies on today's calendar day, so an
instant exactly at that boundary exists. -/
def tab1 : SolarTables :=
  ⟨fun day ev => day * 86400 +
    (match ev with
     | SolarEvent.Dawn => 18000
     | SolarEvent.Sunrise => 21600
     | SolarEvent.Sunset => 72000
     | SolarEvent.Dusk => 90000)⟩

/-- An automatic section with in-range coordinates (longitude, latitude in
the source's field order). -/
def autoC : AutomaticConfig := ⟨11, 49⟩

/-- The validated form of `autoC`'s coordinates. -/
def coordsC : Coordinates := ⟨49, 11⟩

/-- An automatic section with an OUT-OF-RANGE latitude (200°), which
`Coordinates::new` rejects. -/
def autoBad : AutomaticConfig := ⟨11, 200⟩

/-- A configuration with BOTH the manual and the automatic section. -/
def cfgBoth : Configuration :=
  ⟨true, some ⟨[ts0]⟩, some autoC, acts0, false⟩

/-- A configuration with BOTH sections whose automatic coordinates are out
of range. -/
def cfgBadCoords : Configuration :=
  ⟨true, some ⟨[ts0]⟩, some autoBad, acts0, false⟩

/-- A configuration with NEITHER a manual nor an automatic section. -/
def cfgNone : Configuration := ⟨true, none, none, actsNone, false⟩

/-- An enabled configuration (scheduling sections irrelevant here). -/
def cfg0 : Configuration := ⟨true, none, none, acts0, false⟩

/-- A disabled configuration. -/
def cfgDisabled : Configuration := ⟨false, none, none, acts0, false⟩

/-- A daemon state with no hot-reload watcher armed. -/
def d0 : DaemonM := ⟨false⟩

/-! ## Claims -/

/-- C6: for every automatic (coordinates-driven) trigger source and every
instant, `next_action_at` returns `Some` of (successor of the current
interval's event, the current interval's end instant) — the next boundary,
not the current one — and the successor order is the cycle
Sunrise→Sunset→Dusk→Dawn→Sunrise, so four applications of the successor are
the identity. -/
theorem c6_next_boundary :
    (∀ (tab : SolarTables) (date : Int),
      locationNextActionAt tab date =
        some ((Interval.new tab date).event.next, (Interval.new tab date).«end»))
    ∧ ActionTrigger.next ActionTrigger.Sunrise = ActionTrigger.Sunset
    ∧ ActionTrigger.next ActionTrigger.Sunset = ActionTrigger.Dusk
    ∧ ActionTrigger.next ActionTrigger.Dusk = ActionTrigger.Dawn
    ∧ ActionTrigger.next ActionTrigger.Dawn = ActionTrigger.Sunrise
    ∧ ∀ t : ActionTrigger, t.next.next.next.next = t :=
  ⟨fun _ _ => rfl, rfl, rfl, rfl, rfl, fun t => by cases t <;> rfl⟩

/-- C8: handling `Trigger{command}` spawns the command as a (detached
shell) subprocess exactly when the daemon state has `enabled = true`; with
`enabled = false` no subprocess is produced. -/
theorem c8_enabled_gates_spawn (config : Configuration) (d : DaemonM)
    (s : String) (load : Except DynError Configuration) :
    (config.enabled = false →
      handle_command (Action.Trigger s) config d load =
        Except.ok (config, d, []))
    ∧ (config.enabled = true →
      handle_command (Action.Trigger s) config d load =
        Except.ok (config, d, [Effect.spawnShell s])) := by
  constructor <;> intro h <;> simp [handle_command, h]

/-- C8 witness: with a concrete disabled configuration, a `Trigger` action
produces no effects at all. -/
theorem c8_enabled_gates_spawn_witness :
    handle_command (Action.Trigger "redshift") cfgDisabled d0
      (Except.ok cfgDisabled) = Except.ok (cfgDisabled, d0, []) :=
  (c8_enabled_gates_spawn cfgDisabled d0 "redshift" (Except.ok cfgDisabled)).1
    rfl

/-- C10 (amended): whenever the automatic section is present, the manual
section is ignored entirely — but `from_config` succeeds only when
`Coordinates::new` accepts the coordinates (latitude ∈ [-90, 90],
longitude ∈ [-180, 180]), building the automatic variant over the
validated coordinates and the action map; out-of-range coordinates make
the `LocationInfo::from` `.unwrap()` panic instead. -/
theorem c10_automatic_wins (config : Configuration) (auto : AutomaticConfig)
    (h : config.automatic = some auto) :
    (∀ coords : Coordinates,
      Coordinates.new auto.latitude auto.longitude = some coords →
        TriggerSource.from_config config =
          FromConfigResult.ok
            (EventSourceImpl.automatic coords config.actions))
    ∧ (Coordinates.new auto.latitude auto.longitude = none →
      TriggerSource.from_config config = FromConfigResult.panicked) := by
  constructor
  · intro coords hc
    simp [TriggerSource.from_config, h, hc]
  · intro hc
    simp [TriggerSource.from_config, h, hc]

/-- C10 witness: a configuration carrying BOTH sections, with in-range
coordinates, yields the automatic variant, its manual time stamps
ignored. -/
theorem c10_automatic_wins_witness :
    TriggerSource.from_config cfgBoth =
      FromConfigResult.ok (EventSourceImpl.automatic coordsC cfgBoth.actions) :=
  (c10_automatic_wins cfgBoth autoC rfl).1 coordsC (by decide)

/-- C10 counterexample: with both sections present but latitude 200°,
`from_config` does NOT succeed — the coordinate `.unwrap()` panics —
refuting "for every Configuration in which both sections are present,
from_config succeeds". -/
theorem c10_counterexample :
    TriggerSource.from_config cfgBadCoords = FromConfigResult.panicked
    ∧ (TriggerSource.from_config cfgBadCoords).isOk = false
    ∧ cfgBadCoords.automatic = some autoBad
    ∧ cfgBadCoords.manual = some ⟨[ts0]⟩ := by
  refine ⟨?_, ?_, rfl, rfl⟩ <;> decide

/-- C5 (amended): `TriggerSource::from_config` fails with
`InvalidConfiguration` exactly when neither the manual nor the automatic
section is present; but in `run_trigger_thread` that error is propagated by
`?` out of the loop, where `setup_trigger`'s `.expect` panics the trigger
thread — the thread does NOT keep running schedulerless awaiting a valid
reload. -/
theorem c5_invalid_configuration (cfg : Configuration)
    (st : Option EventSourceImpl) (tab : SolarTables) (now callNow : Int) :
    (TriggerSource.from_config cfg =
        FromConfigResult.err Error.InvalidConfiguration ↔
      cfg.automatic = none ∧ cfg.manual = none)
    ∧ (cfg.automatic = none → cfg.manual = none →
      runTriggerIteration st (RecvMsg.gotConfig cfg) tab now callNow =
        TrigOutcome.failed Error.InvalidConfiguration) := by
  rcases h1 : cfg.automatic with _ | a
  · rcases h2 : cfg.manual with _ | m <;>
      simp [TriggerSource.from_config, runTriggerIteration, h1, h2]
  · rcases hc : Coordinates.new a.latitude a.longitude with _ | c <;>
      simp [TriggerSource.from_config, runTriggerIteration, h1, hc]

/-- C5 witness: the empty configuration makes the trigger-thread iteration
fail with `InvalidConfiguration`. -/
theorem c5_invalid_configuration_witness :
    runTriggerIteration none (RecvMsg.gotConfig cfgNone) tab0 0 0 =
      TrigOutcome.failed Error.InvalidConfiguration :=
  (c5_invalid_configuration cfgNone none tab0 0 0).2 rfl rfl

/-- C5 counterexample: receiving a configuration with neither section does
NOT leave the daemon's scheduling alive with no active scheduler — the
iteration's outcome is `failed`, which `setup_trigger`'s `.expect` turns
into a thread panic, so the claim's "keeps running … until a valid reload
arrives" is false on the code. -/
theorem c5_counterexample :
    (runTriggerIteration none (RecvMsg.gotConfig cfgNone) tab0 0 0).threadSurvives
        = false
    ∧ TriggerSource.from_config cfgNone =
        FromConfigResult.err Error.InvalidConfiguration :=
  ⟨rfl, rfl⟩

/-- C4 (amended): if the configuration file is unreadable when the loop
handles `ReloadConfig`, `handle_command` propagates the load error
unchanged — no `ReloadConfig` is re-enqueued, nothing retries — and
`Daemon::run`'s `.expect` panics, terminating the daemon. -/
theorem c4_reload_failure_panics (config : Configuration) (d : DaemonM)
    (e : DynError) :
    handle_command Action.ReloadConfig config d (Except.error e) =
        Except.error e
    ∧ runStep (some Action.ReloadConfig) config d (Except.error e) =
        RunOutcome.panicked :=
  ⟨rfl, rfl⟩

/-- C4 counterexample: at a concrete state, an unreadable configuration
during `ReloadConfig` does not leave the control loop running (it
panics), contradicting "keeps running with the previous configuration". -/
theorem c4_counterexample :
    (runStep (some Action.ReloadConfig) cfg0 d0
      (Except.error DynError.configLoad)).keepsRunning = false :=
  rfl

/-- C1 (amended): the fire decision of `run_trigger_thread` is stateless —
the code maintains no cache of fired instants — so while `now` stays within
the 10-second tolerance window of the target, EVERY iteration forwards the
command again: `n` consecutive iterations with a frozen clock send the
command `n` times. -/
theorem c1_fires_every_poll (src : EventSourceImpl) (tab : SolarTables)
    (now callNow : Int) (a : String) (n : Nat)
    (h : runTriggerIteration (some src) RecvMsg.empty tab now callNow =
      TrigOutcome.cont (some src) (some a)) :
    runPolls (some src) tab now callNow n = List.replicate n a := by
  induction n with
  | zero => rfl
  | succ k ih =>
    simp only [runPolls]
    rw [h]
    simp [ih, List.replicate_succ]

/-- C1 witness: a manual scheduler exactly on target fires on each of three
consecutive evaluations at the same `now`. -/
theorem c1_fires_every_poll_witness :
    runPolls (some srcM) tab0 43200 43200 3 =
      ["redshift", "redshift", "redshift"] :=
  c1_fires_every_poll srcM tab0 43200 43200 "redshift" 3 rfl

/-- C1 counterexample: two evaluations of the fire decision with the same
`now` inside the tolerance window each produce the command (2 commands in 2
polls, and the follow-up evaluation still returns the command, not
nothing) — refuting "a command is produced at most once" and "a further
evaluation with the same `now` returns nothing". -/
theorem c1_counterexample :
    (runPolls (some srcM) tab0 43200 43200 2).length = 2
    ∧ (runTriggerIteration (some srcM) RecvMsg.empty tab0 43200 43200).sent =
        some "redshift"
    ∧ (runTriggerIteration (some srcM) RecvMsg.empty tab0 43200 43200).sent ≠
        none := by
  refine ⟨rfl, rfl, ?_⟩
  decide

/-- C7 (amended): a trigger kind whose configured action string is ABSENT
is a silent no-op — the iteration forwards no command; the empty-string
case is NOT covered (see the counterexample: an empty string is forwarded
like any other command). -/
theorem c7_absent_action_silent (src : EventSourceImpl) (tab : SolarTables)
    (now callNow : Int) (k : ActionTrigger)
    (h1 : chosenKind src tab now callNow = some k)
    (h2 : src.actions.get k = none) :
    (runTriggerIteration (some src) RecvMsg.empty tab now callNow).sent =
      none := by
  cases heq : src.next_action_at tab now callNow with
  | none => simp [chosenKind, heq] at h1
  | some p =>
    have hk : p.1 = k := by simpa [chosenKind, heq] using h1
    simp [runTriggerIteration, pollStep, EventSourceImpl.next_event_at, heq,
      hk, h2, TrigOutcome.sent]

/-- C7 witness: a manual scheduler with an empty action map, exactly on
target, forwards nothing. -/
theorem c7_absent_action_silent_witness :
    (runTriggerIteration (some srcNoActs) RecvMsg.empty tab0 43200 43200).sent
      = none :=
  c7_absent_action_silent srcNoActs tab0 43200 43200 ActionTrigger.Sunrise
    rfl rfl

/-- C7 counterexample: with `on_sunrise = Some("")` the fire decision DOES
forward a Trigger action carrying the empty command — a configured empty
string is not a silent no-op, refuting the claim's empty-string half. -/
theorem c7_counterexample :
    (runTriggerIteration (some srcEmptyStr) RecvMsg.empty tab0 43200 43200).sent
        = some ""
    ∧ (some "" : Option String) ≠ none := by
  refine ⟨rfl, ?_⟩
  decide

/-- C9 (amended): the automatic variant's `next_action_at` is a function of
the source and the queried instant only; the manual variant's selected
trigger KIND is also call-time independent, but the returned instant lives
on the calendar day of the wall clock at call time, so two calls agree only
when they happen on the same UTC day. -/
theorem c9_determinism :
    (∀ (coords : Coordinates) (acts : Actions) (tab : SolarTables)
        (date c1 c2 : Int),
      EventSourceImpl.next_action_at (EventSourceImpl.automatic coords acts)
          tab date c1 =
        EventSourceImpl.next_action_at (EventSourceImpl.automatic coords acts)
          tab date c2)
    ∧ (∀ (ts : List ManualTimeStamp) (acts : Actions) (tab : SolarTables)
        (date c1 c2 : Int),
      dateNaive c1 = dateNaive c2 →
        EventSourceImpl.next_action_at (EventSourceImpl.manual ts acts)
            tab date c1 =
          EventSourceImpl.next_action_at (EventSourceImpl.manual ts acts)
            tab date c2)
    ∧ (∀ (ts : List ManualTimeStamp) (acts : Actions) (tab : SolarTables)
        (date c1 c2 : Int),
      (EventSourceImpl.next_action_at (EventSourceImpl.manual ts acts)
          tab date c1).map Prod.fst =
        (EventSourceImpl.next_action_at (EventSourceImpl.manual ts acts)
          tab date c2).map Prod.fst) := by
  refine ⟨fun _ _ _ _ _ _ => rfl, ?_, ?_⟩
  · intro ts acts tab date c1 c2 h
    simp [EventSourceImpl.next_action_at, manualNextActionAt, withTime, h]
  · intro ts acts tab date c1 c2
    cases heq : rustMinBy (timeOfDay date) ts <;>
      simp [EventSourceImpl.next_action_at, manualNextActionAt, heq]

/-- C9 witness: for two call instants on the same UTC day the manual
variant's results coincide. -/
theorem c9_determinism_witness :
    EventSourceImpl.next_action_at (EventSourceImpl.manual [ts0] actsNone)
        tab0 5 10 =
      EventSourceImpl.next_action_at (EventSourceImpl.manual [ts0] actsNone)
        tab0 5 20 :=
  c9_determinism.2.1 [ts0] actsNone tab0 5 10 20 (by decide)

/-- C9 counterexample: the manual variant consults the wall clock
(`Utc::now()`): the same source queried at the same instant returns
different target instants when the two calls happen on different UTC days
(3600 vs 90000), refuting "identical results … independent of when the call
happens". -/
theorem c9_counterexample :
    EventSourceImpl.next_action_at (EventSourceImpl.manual [tsOne] actsNone)
        tab0 0 0 = some (ActionTrigger.Sunset, 3600)
    ∧ EventSourceImpl.next_action_at (EventSourceImpl.manual [tsOne] actsNone)
        tab0 0 86400 = some (ActionTrigger.Sunset, 90000)
    ∧ (3600 : Int) ≠ 90000 := by
  refine ⟨rfl, rfl, ?_⟩
  decide

/-- The left fold implementing Rust's `min_by` with the signed-difference
comparator computes the first minimum by `trigger_time` of the tail,
threaded against the accumulator. -/
theorem foldl_minBy_eq (tod : Int) (xs : List ManualTimeStamp)
    (acc : ManualTimeStamp) :
    xs.foldl
        (fun a y =>
          if y.trigger_time - tod < a.trigger_time - tod then y else a)
        acc =
      (match firstMinByTriggerTime xs with
       | none => acc
       | some m =>
         if m.trigger_time < acc.trigger_time then m else acc) := by
  induction xs generalizing acc with
  | nil => rfl
  | cons y ys ih =>
    simp only [List.foldl, firstMinByTriggerTime]
    rw [ih]
    rcases hys : firstMinByTriggerTime ys with _ | m
    · simp only [hys, sub_lt_sub_iff_right]
    · simp only [hys, sub_lt_sub_iff_right]
      by_cases hm : m.trigger_time < y.trigger_time <;>
        by_cases hy : y.trigger_time < acc.trigger_time <;>
          simp only [hm, hy, ite_true, ite_false] <;>
            split_ifs <;> first | rfl | omega

/-- The source's `min_by` call equals the spec-side "first entry with the
minimum trigger_time": the subtraction of now's time of day is strictly
monotone and cancels out of the comparison. -/
theorem rustMinBy_eq_firstMin (tod : Int) (l : List ManualTimeStamp) :
    rustMinBy tod l = firstMinByTriggerTime l := by
  cases l with
  | nil => rfl
  | cons x xs =>
    simp only [rustMinBy, firstMinByTriggerTime, foldl_minBy_eq]
    rcases hys : firstMinByTriggerTime xs with _ | m
    · simp only [hys]
    · simp only [hys]
      by_cases hm : m.trigger_time < x.trigger_time <;> simp [hm]

/-- C2 (amended): for every list of manual time stamps, `next_action_at`
returns the FIRST entry with the MINIMUM (earliest) `trigger_time` — the
comparator is the signed, not absolute, difference to now's time of day,
which orders entries exactly by `trigger_time`, so the selection is
independent of `now` — paired with an instant on the calendar day of the
wall clock at call time at that entry's time of day; for the empty list it
returns nothing. -/
theorem c2_manual_selects_minimum (l : List ManualTimeStamp)
    (date callNow : Int) :
    manualNextActionAt l date callNow =
      (firstMinByTriggerTime l).map
        (fun m => (m.action, withTime callNow m.trigger_time)) := by
  simp only [manualNextActionAt, rustMinBy_eq_firstMin]

/-- C2 counterexample: with entries at 12:00 and 01:00 and `now` at 11:59,
the code returns the 01:00 entry (the minimum), although its absolute
time-of-day distance to `now` (39540 s) is far larger than the 12:00
entry's (60 s) — refuting "numerically closest … by absolute
difference". -/
theorem c2_counterexample :
    manualNextActionAt [ts0, tsOne] 43140 43140 =
        some (ActionTrigger.Sunset, 3600)
    ∧ (3600 - 43140 : Int).natAbs > (43200 - 43140 : Int).natAbs := by
  refine ⟨rfl, ?_⟩
  decide

/-- C3 (amended): with the solar boundaries in their expected order, the
classification tries the five windows in the fixed priority order with
first match wins, and windows 2–4 are start-inclusive; window 1 however is
STRICT at its start: an instant exactly at yesterday's dusk is rejected by
window 1 (and by windows 2–4) and lands in the fallback window 5, whose
interval is [today's dusk, tomorrow's dawn) with event Dusk. -/
theorem c3_window_boundaries (tab : SolarTables) (now : Int)
    (h1 : tab.eventTime (dateNaive now - 1) SolarEvent.Dusk <
      tab.eventTime (dateNaive now) SolarEvent.Dawn)
    (h2 : tab.eventTime (dateNaive now) SolarEvent.Dawn <
      tab.eventTime (dateNaive now) SolarEvent.Sunrise)
    (h3 : tab.eventTime (dateNaive now) SolarEvent.Sunrise <
      tab.eventTime (dateNaive now) SolarEvent.Sunset)
    (h4 : tab.eventTime (dateNaive now) SolarEvent.Sunset <
      tab.eventTime (dateNaive now) SolarEvent.Dusk) :
    (tab.eventTime (dateNaive now - 1) SolarEvent.Dusk < now ∧
        now < tab.eventTime (dateNaive now) SolarEvent.Dawn →
      Interval.new tab now =
        ⟨tab.eventTime (dateNaive now - 1) SolarEvent.Dusk,
          tab.eventTime (dateNaive now) SolarEvent.Dawn,
          ActionTrigger.Dusk⟩)
    ∧ (now = tab.eventTime (dateNaive now) SolarEvent.Dawn →
      Interval.new tab now =
        ⟨tab.eventTime (dateNaive now) SolarEvent.Dawn,
          tab.eventTime (dateNaive now) SolarEvent.Sunrise,
          ActionTrigger.Dawn⟩)
    ∧ (now = tab.eventTime (dateNaive now) SolarEvent.Sunrise →
      Interval.new tab now =
        ⟨tab.eventTime (dateNaive now) SolarEvent.Sunrise,
          tab.eventTime (dateNaive now) SolarEvent.Sunset,
          ActionTrigger.Sunrise⟩)
    ∧ (now = tab.eventTime (dateNaive now) SolarEvent.Sunset →
      Interval.new tab now =
        ⟨tab.eventTime (dateNaive now) SolarEvent.Sunset,
          tab.eventTime (dateNaive now) SolarEvent.Dusk,
          ActionTrigger.Sunset⟩)
    ∧ (now = tab.eventTime (dateNaive now - 1) SolarEvent.Dusk →
      Interval.new tab now =
        ⟨tab.eventTime (dateNaive now) SolarEvent.Dusk,
          tab.eventTime (dateNaive now + 1) SolarEvent.Dawn,
          ActionTrigger.Dusk⟩) := by
  refine ⟨?_, ?_, ?_, ?_, ?_⟩ <;> intro h <;>
    simp only [Interval.new] <;>
    split_ifs <;>
    first
      | rfl
      | (exfalso; omega)

/-- C3 witness: a day whose previous civil dusk falls at 25:00 (01:00 of
the current calendar day) realizes the boundary instant; the instant
exactly at that dusk is classified into the fallback window. -/
theorem c3_window_boundaries_witness :
    Interval.new tab1 3600 = ⟨90000, 104400, ActionTrigger.Dusk⟩ :=
  (c3_window_boundaries tab1 3600 (by decide) (by decide) (by decide)
    (by decide)).2.2.2.2 (by decide)

/-- C3 counterexample: the instant 3600 IS exactly window 1's start
(yesterday's dusk), yet the code classifies it into the fallback window
`[today's dusk, tomorrow's dawn)` rather than window 1
`[yesterday's dusk, today's dawn)` — refuting "an instant exactly equal to
a window's start boundary belongs to that window" for window 1. -/
theorem c3_counterexample :
    tab1.eventTime (dateNaive 3600 - 1) SolarEvent.Dusk = 3600
    ∧ Interval.new tab1 3600 = ⟨90000, 104400, ActionTrigger.Dusk⟩
    ∧ Interval.new tab1 3600 ≠ ⟨3600, 18000, ActionTrigger.Dusk⟩ := by
  refine ⟨rfl, rfl, ?_⟩
  decide

end Hypr
